import Mathlib

/-!
Verification of the Ubestream RAG Assistant frontend
(`frontend/src/app/app.component.ts`, `app.component.html`,
`frontend/src/app/api.service.ts`).

The Angular component is shallowly embedded as a pure state-transition
system.  Browser-local storage is modelled as an optional blob that is
either a JSON value (a string that `JSON.parse` would accept, identified
with its parse tree, since `JSON.parse (JSON.stringify j) = j`) or an
unparsable string.  The outcome of the asynchronous `askQuestion` HTTP
call is passed to `sendQuestion` as an explicit parameter, and the
single-threaded callback is applied synchronously; the returned Bool
records whether the Remote Query Client's `askQuestion` was invoked.
`localeCompare` is modelled as code-point lexicographic comparison
(the two agree on all inputs appearing in the claims).
-/

/-- `interface AnswerHistoryItem` from `app.component.ts`. -/
structure AnswerHistoryItem where
  question : String
  answer : String
  inferenceTime : String
  timestamp : Int
deriving Repr, DecidableEq

/-- The four values of `currentSort` in `app.component.ts`. -/
inductive SortMode where
  | time_desc
  | time_asc
  | alpha_asc
  | alpha_desc
deriving Repr, DecidableEq

/-- JSON values, the parse trees of the strings held in local storage. -/
inductive Json where
  | str (s : String)
  | num (n : Int)
  | bool (b : Bool)
  | null
  | arr (xs : List Json)
  | obj (fields : List (String × Json))

/-- A string stored under the local-storage key: either it parses as JSON
(identified with its parse tree) or `JSON.parse` throws on it. -/
inductive Blob where
  | valid (j : Json)
  | invalid

/-- The component's fields (`app.component.ts` lines 26-38) together with
the browser's local storage under the key `ubestream_rag_history`. -/
structure AppState where
  question : String
  answer : String
  inferenceTime : String
  isLoading : Bool
  apiStatus : String
  errorMessage : String
  answerHistory : List AnswerHistoryItem
  filteredHistory : List AnswerHistoryItem
  currentSort : SortMode
  storage : Option Blob

/-- `JSON.stringify` of one history item (its parse tree). -/
def encodeItem (it : AnswerHistoryItem) : Json :=
  Json.obj [("question", Json.str it.question),
            ("answer", Json.str it.answer),
            ("inferenceTime", Json.str it.inferenceTime),
            ("timestamp", Json.num it.timestamp)]

/-- `JSON.stringify` of the history array. -/
def encodeHistory (h : List AnswerHistoryItem) : Json :=
  Json.arr (h.map encodeItem)

/-- Field lookup on a parsed JSON object (`undefined` is `none`). -/
def Json.getField (j : Json) (k : String) : Option Json :=
  match j with
  | Json.obj fs => fs.lookup k
  | _ => none

/-- Reading a string-typed field of a parsed item.  The component assigns
the parsed value without validation; a missing or non-string field is
modelled as the empty string (no claim exercises that case). -/
def readStr (j : Json) (k : String) : String :=
  match j.getField k with
  | some (Json.str s) => s
  | _ => ""

/-- Reading the `timestamp` field followed by the component's
`Number(item.timestamp)` coercion (line 57); `Number` of a JSON number is
that number, and non-numeric values (which would give `NaN`) are modelled
as `0` (no claim exercises them). -/
def readNum (j : Json) (k : String) : Int :=
  match j.getField k with
  | some (Json.num n) => n
  | _ => 0

/-- Rebuilding one history item from its parsed JSON. -/
def decodeItem (j : Json) : AnswerHistoryItem :=
  { question := readStr j "question"
    answer := readStr j "answer"
    inferenceTime := readStr j "inferenceTime"
    timestamp := readNum j "timestamp" }

/-- Rebuilding the history array from its parsed JSON.  A parsed value
that is not an array makes `forEach` throw into the `catch`, which resets
the history to `[]`, so it is decoded as `[]`. -/
def decodeHistory (j : Json) : List AnswerHistoryItem :=
  match j with
  | Json.arr xs => xs.map decodeItem
  | _ => []

/-- `loadHistoryFromLocalStorage` (lines 51-64): a missing blob leaves
`answerHistory` as it is; a blob that fails to parse lands in the `catch`
which resets to `[]`; a parsed blob is decoded and timestamp-coerced. -/
def loadHistoryFromLocalStorage (s : AppState) : AppState :=
  match s.storage with
  | none => s
  | some Blob.invalid => { s with answerHistory := [] }
  | some (Blob.valid j) => { s with answerHistory := decodeHistory j }

/-- `saveHistoryToLocalStorage` (lines 69-76): rewrites the stored blob
with the serialization of the whole in-memory array. -/
def saveHistoryToLocalStorage (s : AppState) : AppState :=
  { s with storage := some (Blob.valid (encodeHistory s.answerHistory)) }

/-- `clearHistory` (lines 81-88); the result of the `confirm` dialog is
passed in as a parameter. -/
def clearHistory (confirmed : Bool) (s : AppState) : AppState :=
  if confirmed then
    { s with answerHistory := [], filteredHistory := [], storage := none }
  else s

/-- Code-point lexicographic comparison on character lists, the model of
`a.localeCompare(b) <= 0`. -/
def lexLe : List Char → List Char → Bool
  | [], _ => true
  | _ :: _, [] => false
  | a :: as, b :: bs =>
      if a.toNat < b.toNat then true
      else if b.toNat < a.toNat then false
      else lexLe as bs

/-- `a.localeCompare(b) <= 0`, modelled as code-point comparison. -/
def localeCompareLe (a b : String) : Bool :=
  lexLe a.toList b.toList

/-- The comparator of mode `time_desc`, `(a, b) => b.timestamp - a.timestamp`,
read as the before-or-equal relation `comparator a b <= 0`. -/
def timeDescRel (a b : AnswerHistoryItem) : Prop :=
  b.timestamp ≤ a.timestamp

instance : DecidableRel timeDescRel :=
  fun a b => Int.decLe b.timestamp a.timestamp

/-- The comparator of mode `time_asc`, `(a, b) => a.timestamp - b.timestamp`. -/
def timeAscRel (a b : AnswerHistoryItem) : Prop :=
  a.timestamp ≤ b.timestamp

instance : DecidableRel timeAscRel :=
  fun a b => Int.decLe a.timestamp b.timestamp

/-- The comparator of mode `alpha_asc`, `a.question.localeCompare(b.question)`. -/
def alphaAscRel (a b : AnswerHistoryItem) : Prop :=
  localeCompareLe a.question b.question = true

instance : DecidableRel alphaAscRel :=
  fun a b => Bool.decEq (localeCompareLe a.question b.question) true

/-- The comparator of mode `alpha_desc`, `b.question.localeCompare(a.question)`. -/
def alphaDescRel (a b : AnswerHistoryItem) : Prop :=
  localeCompareLe b.question a.question = true

instance : DecidableRel alphaDescRel :=
  fun a b => Bool.decEq (localeCompareLe b.question a.question) true

/-- The sort over a shallow copy in `applySortingAndFiltering`
(lines 93-112), as a function of the records and the mode; the stable
`Array.prototype.sort` is modelled by the stable `List.insertionSort`. -/
def sortRecords (records : List AnswerHistoryItem) (mode : SortMode) :
    List AnswerHistoryItem :=
  match mode with
  | SortMode.time_desc => List.insertionSort timeDescRel records
  | SortMode.time_asc => List.insertionSort timeAscRel records
  | SortMode.alpha_asc => List.insertionSort alphaAscRel records
  | SortMode.alpha_desc => List.insertionSort alphaDescRel records

/-- `applySortingAndFiltering` (lines 93-112): sorts a shallow copy of
`answerHistory` by `currentSort` and stores it in `filteredHistory`. -/
def applySortingAndFiltering (s : AppState) : AppState :=
  { s with filteredHistory := sortRecords s.answerHistory s.currentSort }

/-- Whitespace as stripped by JavaScript `String.prototype.trim`
(restricted to the ASCII whitespace the claims exercise). -/
def isJsWhitespace (c : Char) : Bool :=
  c = ' ' || c = '\t' || c = '\n' || c = '\r'

/-- JavaScript `String.prototype.trim`, modelled on the character list. -/
def jsTrim (s : String) : String :=
  String.mk (((s.toList.dropWhile isJsWhitespace).reverse.dropWhile
    isJsWhitespace).reverse)

/-- The outcome delivered to `sendQuestion`'s subscription: a response
whose `answer` and `inference_time` fields may each be absent (or null,
i.e. falsy without being a string) or present, or a network error. -/
inductive AskOutcome where
  | ok (answer : Option String) (inference_time : Option String)
  | err

/-- JavaScript `v || d` for a string field that may be absent: absent,
null and the empty string are falsy and give the default. -/
def jsOrString (v : Option String) (d : String) : String :=
  match v with
  | none => d
  | some s => if s = "" then d else s

/-- `sendQuestion` (lines 139-177), with the HTTP outcome and `Date.now()`
passed in and the subscription callback applied synchronously.  The
returned Bool records whether `apiService.askQuestion` was invoked. -/
def sendQuestion (s : AppState) (outcome : AskOutcome) (now : Int) :
    AppState × Bool :=
  if jsTrim s.question = "" then
    ({ s with errorMessage := "Please enter a question." }, false)
  else
    let s1 := { s with isLoading := true, answer := "", inferenceTime := "",
                       errorMessage := "" }
    let currentQuestion := s.question
    match outcome with
    | AskOutcome.ok ans inf =>
        let answer := jsOrString ans "No answer received."
        let inferenceTime := jsOrString inf "N/A"
        let s2 := { s1 with answer := answer, inferenceTime := inferenceTime,
                            isLoading := false }
        let newHistoryItem : AnswerHistoryItem :=
          { question := currentQuestion, answer := answer,
            inferenceTime := inferenceTime, timestamp := now }
        let s3 := { s2 with answerHistory := s2.answerHistory ++ [newHistoryItem] }
        let s4 := saveHistoryToLocalStorage s3
        let s5 := applySortingAndFiltering s4
        ({ s5 with question := "" }, true)
    | AskOutcome.err =>
        ({ s1 with
            errorMessage := "Failed to get answer. Check console for details. Ensure Ollama server is running and models are pulled.",
            isLoading := false }, true)

/-- The submit button's `[disabled]` binding in `app.component.html`
(line 41): `isLoading || apiStatus !== 'Ready'`. -/
def buttonDisabled (s : AppState) : Bool :=
  s.isLoading || s.apiStatus ≠ "Ready"

/-- Clicking the submit button: a disabled button fires no click handler,
otherwise `(click)="sendQuestion()"` runs. -/
def clickSubmit (s : AppState) (outcome : AskOutcome) (now : Int) :
    AppState × Bool :=
  if buttonDisabled s then (s, false) else sendQuestion s outcome now

/-- The history array recoverable from the stored blob: absent or
unparsable storage yields the empty history, a parsed blob decodes. -/
def persistedHistory (st : Option Blob) : List AnswerHistoryItem :=
  match st with
  | none => []
  | some Blob.invalid => []
  | some (Blob.valid j) => decodeHistory j

instance : IsTotal AnswerHistoryItem timeDescRel :=
  ⟨fun a b => Int.le_total b.timestamp a.timestamp⟩

instance : IsTrans AnswerHistoryItem timeDescRel :=
  ⟨fun _ _ _ hab hbc => le_trans hbc hab⟩

/-- A concrete component state used to instantiate the theorems: a
non-blank question while the backend status is still `Checking...`. -/
def sampleState : AppState :=
  { question := "hi", answer := "", inferenceTime := "", isLoading := false,
    apiStatus := "Checking...", errorMessage := "", answerHistory := [],
    filteredHistory := [], currentSort := SortMode.time_desc, storage := none }

theorem decodeItem_encodeItem (it : AnswerHistoryItem) :
    decodeItem (encodeItem it) = it := rfl

theorem decodeHistory_encodeHistory (h : List AnswerHistoryItem) :
    decodeHistory (encodeHistory h) = h := by
  induction h with
  | nil => rfl
  | cons a t ih =>
    simp only [decodeHistory, encodeHistory, List.map_cons] at ih ⊢
    rw [decodeItem_encodeItem]
    exact congrArg (List.cons a) ih

theorem sortRecords_nil (mode : SortMode) : sortRecords [] mode = [] := by
  cases mode <;> rfl

theorem sortRecords_perm (records : List AnswerHistoryItem) (mode : SortMode) :
    (sortRecords records mode).Perm records := by
  cases mode <;> exact List.perm_insertionSort _ records

/-- C1 (counterexample): in a state whose backend status is not `Ready`
(and which is not loading) but whose question is non-blank, invoking
`sendQuestion` does call the Remote Query Client's `askQuestion`, so the
claim that submission never reaches `askQuestion` in such states is false
for direct invocation (the textarea's Enter-key binding). -/
theorem C1_counterexample :
    sampleState.apiStatus ≠ "Ready" ∧ sampleState.isLoading = false ∧
    (sendQuestion sampleState (AskOutcome.ok (some "ans") (some "1 s")) 0).2 =
      true := by
  refine ⟨by decide, rfl, by decide⟩

/-- C1 (amended): submission through the submit button is never performed
while the backend status is not `Ready` or while a previous submission is
still loading: the button's `disabled` binding holds in exactly those
states, so the click path does not call `askQuestion`.  (The `sendQuestion`
method itself checks only for blank input, so the Enter-key path is not
blocked.) -/
theorem C1_click_submission_blocked (s : AppState) (o : AskOutcome)
    (now : Int) (h : s.apiStatus ≠ "Ready" ∨ s.isLoading = true) :
    (clickSubmit s o now).2 = false := by
  have hd : buttonDisabled s = true := by
    rcases h with h | h
    · simp [buttonDisabled, h]
    · simp [buttonDisabled, h]
  simp [clickSubmit, hd]

/-- C1 witness: the amended theorem applied at a concrete state whose
status is `Checking...`. -/
theorem C1_click_submission_blocked_witness :
    (sampleState.apiStatus ≠ "Ready" ∨ sampleState.isLoading = true) ∧
    (clickSubmit sampleState AskOutcome.err 0).2 = false :=
  ⟨Or.inl (by decide),
   C1_click_submission_blocked sampleState AskOutcome.err 0
     (Or.inl (by decide))⟩

/-- C2: the sorted view is a pure function of the records and the mode;
with mode `time_desc` the resulting timestamps are non-increasing; on the
two-record example newest-first yields `[B, A]` and alphabetical ascending
yields `[A, B]`. -/
theorem C2_sorting_pure_and_ordered :
    (∀ s : AppState, (applySortingAndFiltering s).filteredHistory =
        sortRecords s.answerHistory s.currentSort) ∧
    (∀ records : List AnswerHistoryItem,
        (sortRecords records SortMode.time_desc).Pairwise
          (fun a b => b.timestamp ≤ a.timestamp)) ∧
    sortRecords [⟨"A", "", "", 100⟩, ⟨"B", "", "", 200⟩] SortMode.time_desc =
      [⟨"B", "", "", 200⟩, ⟨"A", "", "", 100⟩] ∧
    sortRecords [⟨"A", "", "", 100⟩, ⟨"B", "", "", 200⟩] SortMode.alpha_asc =
      [⟨"A", "", "", 100⟩, ⟨"B", "", "", 200⟩] := by
  refine ⟨fun s => rfl, fun records => ?_, by decide, by decide⟩
  exact List.sorted_insertionSort timeDescRel records

/-- C3: appending a record, persisting, and loading back (simulating a
reload) yields exactly the in-memory list after the append. -/
theorem C3_append_save_load_roundtrip (s : AppState) (r : AnswerHistoryItem) :
    (loadHistoryFromLocalStorage
      (saveHistoryToLocalStorage
        { s with answerHistory := s.answerHistory ++ [r] })).answerHistory =
      s.answerHistory ++ [r] := by
  simp [saveHistoryToLocalStorage, loadHistoryFromLocalStorage,
    decodeHistory_encodeHistory]

/-- C4: when `askQuestion` fails, the controller leaves the loading state,
shows a non-empty error message, and neither the in-memory history nor the
persisted storage changes. -/
theorem C4_failure_path (s : AppState) (now : Int)
    (h : jsTrim s.question ≠ "") :
    (sendQuestion s AskOutcome.err now).1.isLoading = false ∧
    (sendQuestion s AskOutcome.err now).1.errorMessage ≠ "" ∧
    (sendQuestion s AskOutcome.err now).1.answerHistory = s.answerHistory ∧
    (sendQuestion s AskOutcome.err now).1.storage = s.storage := by
  refine ⟨?_, ?_, ?_, ?_⟩ <;> simp [sendQuestion, h]

/-- C4 witness: the failure path at a concrete state. -/
theorem C4_failure_path_witness :
    jsTrim sampleState.question ≠ "" ∧
    ((sendQuestion sampleState AskOutcome.err 0).1.isLoading = false ∧
     (sendQuestion sampleState AskOutcome.err 0).1.errorMessage ≠ "" ∧
     (sendQuestion sampleState AskOutcome.err 0).1.answerHistory =
       sampleState.answerHistory ∧
     (sendQuestion sampleState AskOutcome.err 0).1.storage =
       sampleState.storage) :=
  ⟨by decide, C4_failure_path sampleState 0 (by decide)⟩

/-- C5: with a blank (all-whitespace or empty) question, `sendQuestion`
does not call `askQuestion`; it only sets the error message, leaving every
other field of the state unchanged. -/
theorem C5_blank_input (s : AppState) (o : AskOutcome) (now : Int)
    (h : jsTrim s.question = "") :
    sendQuestion s o now =
      ({ s with errorMessage := "Please enter a question." }, false) := by
  simp [sendQuestion, h]

/-- C5 witness: the blank-input path at a concrete whitespace question. -/
theorem C5_blank_input_witness :
    jsTrim "  " = "" ∧
    sendQuestion { sampleState with question := "  " } AskOutcome.err 0 =
      ({ sampleState with question := "  ",
                          errorMessage := "Please enter a question." },
       false) :=
  ⟨by decide,
   C5_blank_input { sampleState with question := "  " } AskOutcome.err 0
     (by decide)⟩

/-- C6: when the persisted blob fails to parse, loading resets the
in-memory history to empty and surfaces no error (the error message and
the rest of the state are untouched). -/
theorem C6_corrupt_blob (s : AppState) (h : s.storage = some Blob.invalid) :
    (loadHistoryFromLocalStorage s).answerHistory = [] ∧
    (loadHistoryFromLocalStorage s).errorMessage = s.errorMessage ∧
    (loadHistoryFromLocalStorage s).question = s.question ∧
    (loadHistoryFromLocalStorage s).isLoading = s.isLoading := by
  refine ⟨?_, ?_, ?_, ?_⟩ <;> simp [loadHistoryFromLocalStorage, h]

/-- C6 witness: loading a concrete unparsable blob. -/
theorem C6_corrupt_blob_witness :
    ({ sampleState with storage := some Blob.invalid } : AppState).storage =
      some Blob.invalid ∧
    ((loadHistoryFromLocalStorage
        { sampleState with storage := some Blob.invalid }).answerHistory = [] ∧
     (loadHistoryFromLocalStorage
        { sampleState with storage := some Blob.invalid }).errorMessage =
       ({ sampleState with storage := some Blob.invalid } : AppState).errorMessage ∧
     (loadHistoryFromLocalStorage
        { sampleState with storage := some Blob.invalid }).question =
       ({ sampleState with storage := some Blob.invalid } : AppState).question ∧
     (loadHistoryFromLocalStorage
        { sampleState with storage := some Blob.invalid }).isLoading =
       ({ sampleState with storage := some Blob.invalid } : AppState).isLoading) :=
  ⟨rfl, C6_corrupt_blob { sampleState with storage := some Blob.invalid } rfl⟩

/-- C7: a confirmed clear empties the in-memory list, its derived view and
the persisted storage; an unconfirmed clear changes nothing. -/
theorem C7_clear_history (s : AppState) :
    (clearHistory true s).answerHistory = [] ∧
    (clearHistory true s).filteredHistory = [] ∧
    (clearHistory true s).storage = none ∧
    clearHistory false s = s :=
  ⟨rfl, rfl, rfl, rfl⟩

/-- C8: after each mutation of the history — a successful submission's
append, or a confirmed clear — the persisted array agrees with the
in-memory array, and the view model equals the sort of that already
persisted array. -/
theorem C8_persistence_invariant (s : AppState) (ans inf : Option String)
    (now : Int) (h : jsTrim s.question ≠ "") :
    (persistedHistory (sendQuestion s (AskOutcome.ok ans inf) now).1.storage =
       (sendQuestion s (AskOutcome.ok ans inf) now).1.answerHistory ∧
     (sendQuestion s (AskOutcome.ok ans inf) now).1.filteredHistory =
       sortRecords (sendQuestion s (AskOutcome.ok ans inf) now).1.answerHistory
         (sendQuestion s (AskOutcome.ok ans inf) now).1.currentSort) ∧
    (persistedHistory (clearHistory true s).storage =
       (clearHistory true s).answerHistory ∧
     (clearHistory true s).filteredHistory =
       sortRecords (clearHistory true s).answerHistory
         (clearHistory true s).currentSort) := by
  refine ⟨⟨?_, ?_⟩, ?_, ?_⟩
  · simp [sendQuestion, h, saveHistoryToLocalStorage, applySortingAndFiltering,
      persistedHistory, decodeHistory_encodeHistory]
  · simp [sendQuestion, h, saveHistoryToLocalStorage, applySortingAndFiltering]
  · simp [clearHistory, persistedHistory]
  · simp [clearHistory, sortRecords_nil]

/-- C8 witness: the invariant at a concrete state and response. -/
theorem C8_persistence_invariant_witness :
    jsTrim sampleState.question ≠ "" ∧
    ((persistedHistory
        (sendQuestion sampleState (AskOutcome.ok (some "ans") (some "1 s"))
          0).1.storage =
       (sendQuestion sampleState (AskOutcome.ok (some "ans") (some "1 s"))
         0).1.answerHistory ∧
      (sendQuestion sampleState (AskOutcome.ok (some "ans") (some "1 s"))
        0).1.filteredHistory =
       sortRecords
         (sendQuestion sampleState (AskOutcome.ok (some "ans") (some "1 s"))
           0).1.answerHistory
         (sendQuestion sampleState (AskOutcome.ok (some "ans") (some "1 s"))
           0).1.currentSort) ∧
     (persistedHistory (clearHistory true sampleState).storage =
        (clearHistory true sampleState).answerHistory ∧
      (clearHistory true sampleState).filteredHistory =
        sortRecords (clearHistory true sampleState).answerHistory
          (clearHistory true sampleState).currentSort)) :=
  ⟨by decide,
   C8_persistence_invariant sampleState (some "ans") (some "1 s") 0
     (by decide)⟩

/-- C9: recomputing the view leaves the underlying `answerHistory`
unchanged (the sort works on a shallow copy) and produces a permutation of
it — no record is added or dropped. -/
theorem C9_sort_frame (s : AppState) :
    (applySortingAndFiltering s).answerHistory = s.answerHistory ∧
    (applySortingAndFiltering s).filteredHistory.Perm s.answerHistory :=
  ⟨rfl, sortRecords_perm s.answerHistory s.currentSort⟩

/-- C10: on any successful response whose `answer` is falsy (absent or
empty) — whatever `inference_time` holds — the displayed and recorded
answer is the literal `No answer received.` and a record is still
appended; independently, any falsy `inference_time` yields `N/A` with a
record still appended. -/
theorem C10_falsy_response_fields (s : AppState) (ans inf : Option String)
    (now : Int) (h : jsTrim s.question ≠ "") :
    ((ans = none ∨ ans = some "") →
       (sendQuestion s (AskOutcome.ok ans inf) now).1.answer =
         "No answer received." ∧
       ∃ t, (sendQuestion s (AskOutcome.ok ans inf) now).1.answerHistory =
         s.answerHistory ++
           [{ question := s.question, answer := "No answer received.",
              inferenceTime := t, timestamp := now }]) ∧
    ((inf = none ∨ inf = some "") →
       (sendQuestion s (AskOutcome.ok ans inf) now).1.inferenceTime =
         "N/A" ∧
       ∃ a, (sendQuestion s (AskOutcome.ok ans inf) now).1.answerHistory =
         s.answerHistory ++
           [{ question := s.question, answer := a,
              inferenceTime := "N/A", timestamp := now }]) := by
  constructor
  · intro ha
    have hja : jsOrString ans "No answer received." = "No answer received." := by
      rcases ha with h1 | h1 <;> simp [jsOrString, h1]
    refine ⟨?_, ⟨jsOrString inf "N/A", ?_⟩⟩ <;>
      simp [sendQuestion, h, hja, saveHistoryToLocalStorage,
        applySortingAndFiltering]
  · intro hi
    have hji : jsOrString inf "N/A" = "N/A" := by
      rcases hi with h1 | h1 <;> simp [jsOrString, h1]
    refine ⟨?_, ⟨jsOrString ans "No answer received.", ?_⟩⟩ <;>
      simp [sendQuestion, h, hji, saveHistoryToLocalStorage,
        applySortingAndFiltering]

/-- C10 witness: the two mixed cases at a concrete state — an absent
answer with a present inference time, and a present answer with an absent
inference time. -/
theorem C10_falsy_response_fields_witness :
    jsTrim sampleState.question ≠ "" ∧
    ((sendQuestion sampleState (AskOutcome.ok none (some "2.3s")) 0).1.answer =
       "No answer received." ∧
     ∃ t, (sendQuestion sampleState (AskOutcome.ok none (some "2.3s"))
         0).1.answerHistory =
       sampleState.answerHistory ++
         [{ question := sampleState.question,
            answer := "No answer received.", inferenceTime := t,
            timestamp := 0 }]) ∧
    ((sendQuestion sampleState (AskOutcome.ok (some "ok") none)
        0).1.inferenceTime = "N/A" ∧
     ∃ a, (sendQuestion sampleState (AskOutcome.ok (some "ok") none)
         0).1.answerHistory =
       sampleState.answerHistory ++
         [{ question := sampleState.question, answer := a,
            inferenceTime := "N/A", timestamp := 0 }]) :=
  ⟨by decide,
   (C10_falsy_response_fields sampleState none (some "2.3s") 0
     (by decide)).1 (Or.inl rfl),
   (C10_falsy_response_fields sampleState (some "ok") none 0
     (by decide)).2 (Or.inl rfl)⟩
